import Mathlib

/-!
Verification of the ring-builder proxy server (`src/index.js`, first variant:
the Express app with the Nivoda `/diamonds` search, the token cache, and the
Shopify `/checkout` flow).  The JavaScript is shallowly embedded: JSON scalars
become an inductive `JScalar` carrying exactly what the handlers observe
(type tag, truthiness, string rendering, `Number` coercion); the handlers
become pure functions from request values and external-call outcomes to
responses plus the list of outbound calls they issue.
-/

set_option autoImplicit false

namespace RingBuilder

/-- A JSON/JS scalar value as the handlers observe it.  `jundefined` models a
missing field (JS `undefined`). -/
inductive JScalar where
  | jnull
  | jundefined
  | jbool (b : Bool)
  | jnum (q : ℚ)
  | jstr (s : String)
  deriving DecidableEq, Repr

/-- JS truthiness of a scalar: `null`/`undefined`/`false`/`0`/`""` are falsy. -/
def jsTruthy : JScalar → Bool
  | .jnull => false
  | .jundefined => false
  | .jbool b => b
  | .jnum q => decide (q ≠ 0)
  | .jstr s => !s.isEmpty

/-- `typeof v === "number"` on a scalar. -/
def isNumber : JScalar → Bool
  | .jnum _ => true
  | _ => false

/-- The numeric value of a scalar when it is a JS number (`typeof === "number"`). -/
def numOf : JScalar → Option ℚ
  | .jnum q => some q
  | _ => none

/-- Value of a run of decimal digit characters. -/
def natFromDigits (cs : List Char) : ℚ :=
  cs.foldl (fun acc c => acc * 10 + (c.toNat - 48)) 0

/-- Value of a fractional digit run `cs` read as `0.cs`. -/
def fracFromDigits (cs : List Char) : ℚ :=
  natFromDigits cs / (10 : ℚ) ^ cs.length

/-- Unsigned decimal literal: `digits`, `digits.digits`, `.digits` or `digits.`
with at least one digit.  Returns `none` (NaN) otherwise. -/
def parseDecimal (cs : List Char) : Option ℚ :=
  let intPart := cs.takeWhile Char.isDigit
  let rest := cs.dropWhile Char.isDigit
  match rest with
  | [] => if intPart.isEmpty then none else some (natFromDigits intPart)
  | '.' :: frac =>
      if frac.all Char.isDigit then
        if intPart.isEmpty && frac.isEmpty then none
        else some (natFromDigits intPart + fracFromDigits frac)
      else none
  | _ => none

/-- Strip leading and trailing whitespace from a character list. -/
def trimChars (cs : List Char) : List Char :=
  ((cs.dropWhile Char.isWhitespace).reverse.dropWhile Char.isWhitespace).reverse

/-- JS `Number(s)` coercion of a string, `none` meaning NaN.  Modelled for the
forms the claims exercise: trimmed empty string is `0`, optionally signed plain
decimal literals take their value, everything else is NaN (JS additionally
accepts exponent, hex and `Infinity` forms, which no claim depends on). -/
def strToNumber (s : String) : Option ℚ :=
  match trimChars s.toList with
  | [] => some 0
  | '+' :: rest => parseDecimal rest
  | '-' :: rest => (parseDecimal rest).map Neg.neg
  | cs => parseDecimal cs

/-- JS `Number(v)` coercion of a scalar, `none` meaning NaN. -/
def jsToNumber : JScalar → Option ℚ
  | .jnull => some 0
  | .jundefined => none
  | .jbool b => some (if b then 1 else 0)
  | .jnum q => some q
  | .jstr s => strToNumber s

/-- String rendering of a scalar, as used by template literals and `String()`.
Exact for integers and the non-number scalars, which is all the claims use;
non-integral numbers are rendered as `num/den` rather than JS's decimal form
(no claim depends on that rendering). -/
def jToString : JScalar → String
  | .jnull => "null"
  | .jundefined => "undefined"
  | .jbool b => if b then "true" else "false"
  | .jnum q => if q.den = 1 then toString q.num else toString q.num ++ "/" ++ toString q.den
  | .jstr s => s

/-- JS `Math.round`: round half toward positive infinity, i.e. the floor of
`q + 1/2`. -/
def jsRound (q : ℚ) : ℤ := ⌊q + 1/2⌋

/-! ## The `/diamonds` request and supplier query (src/index.js lines 254-285) -/

/-- The carat object of a `/diamonds` body; `min`/`max` are arbitrary scalars
(the handler only tests `typeof === "number"`). -/
structure CaratRange where
  min : JScalar
  max : JScalar
  deriving DecidableEq, Repr

/-- The `/diamonds` request body fields the handler reads.  `carat = none`
models an absent (or falsy/non-object) `carat`, whose member accesses the
handler guards with `carat && ...`. -/
structure DiamondsRequest where
  shape : JScalar
  carat : Option CaratRange
  limit : JScalar
  deriving DecidableEq, Repr

/-- The `SHAPE_MAP` table of src/index.js lines 61-73: UI labels to Nivoda
shape codes. -/
def SHAPE_MAP : String → Option String
  | "Brilliant Round" => some "ROUND"
  | "Asscher" => some "ASSCHER"
  | "Baguette" => some "BAGUETTE"
  | "Cushion" => some "CUSHION"
  | "Emerald" => some "EMERALD"
  | "Heart" => some "HEART"
  | "Marquise" => some "MARQUISE"
  | "Oval" => some "OVAL"
  | "Pear" => some "PEAR"
  | "Princess" => some "PRINCESS"
  | "Radiant" => some "RADIANT"
  | _ => none

/-- `shape && SHAPE_MAP[shape] ? SHAPE_MAP[shape] : null`.  A falsy shape is
never looked up; property lookup uses the string form of the key. -/
def mappedShape (shape : JScalar) : Option String :=
  if jsTruthy shape then SHAPE_MAP (jToString shape) else none

/-- The `query` object sent to the supplier: `search_on_markup_price` is always
set; `shapes` and `sizes` are present only when assigned. -/
structure SupplierQuery where
  search_on_markup_price : Bool
  shapes : Option (List String)
  sizes : Option (List (Option ℚ × Option ℚ))
  deriving DecidableEq, Repr

/-- The GraphQL `variables` of the diamond query. -/
structure QueryVariables where
  offset : ℚ
  limit : JScalar
  query : SupplierQuery
  deriving DecidableEq, Repr

/-- `cMin` of the handler: `carat && typeof carat.min === "number" ?
Number(carat.min) : null`. -/
def caratBound (carat : Option CaratRange) (f : CaratRange → JScalar) : Option ℚ :=
  match carat with
  | some c => numOf (f c)
  | none => none

/-- Query construction of the `/diamonds` handler (src/index.js lines 258-285):
the shape filter, the carat `sizes` filter, and the `variables` object with
`offset: 0` and `limit: limit || 24`. -/
def buildDiamondsVariables (req : DiamondsRequest) : QueryVariables :=
  let cMin := caratBound req.carat CaratRange.min
  let cMax := caratBound req.carat CaratRange.max
  let shapes := (mappedShape req.shape).map (fun code => [code])
  let sizes := if cMin.isSome || cMax.isSome then some [(cMin, cMax)] else none
  { offset := 0
    limit := if jsTruthy req.limit then req.limit else .jnum 24
    query :=
      { search_on_markup_price := true
        shapes := shapes
        sizes := sizes } }

/-! ## Normalization of raw supplier items (src/index.js lines 292-316) -/

/-- The certificate object of a raw supplier item; each field is an arbitrary
scalar, `jundefined` when missing. -/
structure RawCertificate where
  carats : JScalar
  shape : JScalar
  color : JScalar
  clarity : JScalar
  cut : JScalar
  certNumber : JScalar
  deriving DecidableEq, Repr

/-- A certificate object with every field missing, the `{}` default. -/
def emptyRawCert : RawCertificate :=
  { carats := .jundefined, shape := .jundefined, color := .jundefined, clarity := .jundefined
    cut := .jundefined, certNumber := .jundefined }

/-- The `diamond` sub-object of a raw item.  `certificate = none` models an
absent/falsy certificate, defaulted to `{}` by `diamond.certificate || {}`. -/
structure RawDiamondInfo where
  image : JScalar
  certificate : Option RawCertificate
  deriving DecidableEq, Repr

/-- A raw supplier item.  `diamond = none` models an absent/falsy `diamond`,
defaulted to `{}` by `d.diamond || {}`. -/
structure RawItem where
  id : JScalar
  price : JScalar
  diamond : Option RawDiamondInfo
  deriving DecidableEq, Repr

/-- The value of `priceCents` in a normalized record: a number, `NaN` (which
`res.json` serializes as `null`), or `null`. -/
inductive PriceCents where
  | val (n : ℤ)
  | nan
  | null
  deriving DecidableEq, Repr

/-- The `priceCents` computation of the `/diamonds` handler:
`typeof priceRaw === "number" ? Math.round(priceRaw * 100) : priceRaw ?
Math.round(Number(priceRaw) * 100) : null`. -/
def normalizePriceCents (priceRaw : JScalar) : PriceCents :=
  match priceRaw with
  | .jnum q => .val (jsRound (q * 100))
  | p =>
      if jsTruthy p then
        match jsToNumber p with
        | some q => .val (jsRound (q * 100))
        | none => .nan
      else .null

/-- A `v || null` field copy. -/
def copyField (v : JScalar) : JScalar :=
  if jsTruthy v then v else .jnull

/-- The normalized diamond record built per raw item. -/
structure NormItem where
  id : JScalar
  priceCents : PriceCents
  image : JScalar
  certificate : RawCertificate
  deriving DecidableEq, Repr

/-- The per-item normalization of the `/diamonds` handler (src/index.js lines
292-316): `diamond`/`certificate` defaulted to `{}` when falsy, price
normalized, image and certificate sub-fields copied with `|| null`. -/
def normalizeItem (d : RawItem) : NormItem :=
  let diamondImage := match d.diamond with
    | some di => di.image
    | none => .jundefined
  let cert := match d.diamond with
    | some di => di.certificate.getD emptyRawCert
    | none => emptyRawCert
  { id := d.id
    priceCents := normalizePriceCents d.price
    image := copyField diamondImage
    certificate :=
      { carats := copyField cert.carats
        shape := copyField cert.shape
        color := copyField cert.color
        clarity := copyField cert.clarity
        cut := copyField cert.cut
        certNumber := copyField cert.certNumber } }

/-- The raw `diamond.image` a raw item exposes to the handler after the `|| {}`
defaults. -/
def rawImageOf (d : RawItem) : JScalar :=
  match d.diamond with
  | some di => di.image
  | none => .jundefined

/-- The raw certificate a raw item exposes to the handler after the `|| {}`
defaults. -/
def rawCertOf (d : RawItem) : RawCertificate :=
  match d.diamond with
  | some di => di.certificate.getD emptyRawCert
  | none => emptyRawCert

/-! ## The token cache (src/index.js lines 56-126) -/

/-- The process-wide token cache: `cachedToken` (`none` is the initial
`null`) and `cachedTokenExpiry` in milliseconds. -/
structure TokenState where
  cachedToken : Option String
  cachedTokenExpiry : ℤ
  deriving DecidableEq, Repr

/-- `TOKEN_TTL_MS = 5.5 * 60 * 60 * 1000`. -/
def TOKEN_TTL_MS : ℤ := 19800000

/-- JS truthiness of the cached token: `null` and `""` are falsy. -/
def truthyToken : Option String → Bool
  | some s => !s.isEmpty
  | none => false

/-- The `cachedToken && now < cachedTokenExpiry` test of `getNivodaToken`. -/
def tokenCacheValid (st : TokenState) (now : ℤ) : Bool :=
  truthyToken st.cachedToken && decide (now < st.cachedTokenExpiry)

/-- Outcome of the authenticate request as `getNivodaToken` observes it:
a transport/GraphQL error (`!resp.ok || json.errors`), or an accepted response
whose drilled-out token is `none` when any link of the chain is missing. -/
inductive AuthOutcome where
  | httpError
  | ok (token : Option String)
  deriving DecidableEq, Repr

/-- Result of one `getNivodaToken` call: the returned token or the thrown
error message, the token cache afterwards, and how many authenticate requests
were issued. -/
structure TokenResult where
  result : Except String String
  state : TokenState
  authCalls : ℕ
  deriving Repr

/-- The refresh path of `getNivodaToken` (src/index.js lines 81-125):
missing credentials throw before any request; otherwise one authenticate
request is issued, errors and missing/empty tokens throw, and a good token is
cached with expiry `Date.now() + TOKEN_TTL_MS` (the second `Date.now()`,
sampled after the request, is `nowAfterAuth`). -/
def refreshNivodaToken (st : TokenState) (credsOk : Bool) (auth : AuthOutcome)
    (nowAfterAuth : ℤ) : TokenResult :=
  if !credsOk then
    { result := .error "Missing NIVODA_USERNAME or NIVODA_PASSWORD"
      state := st, authCalls := 0 }
  else
    match auth with
    | .httpError =>
        { result := .error "Nivoda auth error", state := st, authCalls := 1 }
    | .ok none =>
        { result := .error "Nivoda auth error: no token in response"
          state := st, authCalls := 1 }
    | .ok (some t) =>
        if t.isEmpty then
          { result := .error "Nivoda auth error: no token in response"
            state := st, authCalls := 1 }
        else
          { result := .ok t
            state := { cachedToken := some t
                       cachedTokenExpiry := nowAfterAuth + TOKEN_TTL_MS }
            authCalls := 1 }

/-- `getNivodaToken` (src/index.js lines 75-126): return the cached token when
it is truthy and unexpired at `now`, else refresh. -/
def getNivodaToken (st : TokenState) (now : ℤ) (credsOk : Bool)
    (auth : AuthOutcome) (nowAfterAuth : ℤ) : TokenResult :=
  if tokenCacheValid st now then
    { result := .ok (st.cachedToken.getD ""), state := st, authCalls := 0 }
  else
    refreshNivodaToken st credsOk auth nowAfterAuth

/-! ## The `/checkout` flow (src/index.js lines 159-248 and 331-387) -/

/-- Digit-string with exactly two decimal places for a nonnegative count `n` of
hundredths. -/
def fixed2String (n : ℤ) : String :=
  let r := n % 100
  toString (n / 100) ++ "." ++ (if r < 10 then "0" ++ toString r else toString r)

/-- JS `x.toFixed(2)`: round `|x| * 100` half away from zero to an integer and
render with two decimals, restoring the sign. -/
def toFixed2 (q : ℚ) : String :=
  if q < 0 then "-" ++ fixed2String ⌊-q * 100 + 1/2⌋
  else fixed2String ⌊q * 100 + 1/2⌋

/-- The selected-diamond object of a `/checkout` body.  `certificate = none`
models an absent/falsy certificate, defaulted to `{}` by
`(diamond && diamond.certificate) || {}`. -/
structure DiamondObj where
  id : JScalar
  certificate : Option RawCertificate
  deriving DecidableEq, Repr

/-- The Shopify configuration read from the environment: `storeDomain`
(possibly unset), the admin access token (defaulted to `""`), and
`DIAMOND_PRODUCT_ID` (possibly unset). -/
structure ShopifyEnv where
  storeDomain : Option String
  adminToken : String
  diamondProductId : Option String
  deriving DecidableEq, Repr

/-- `!SHOPIFY_STORE_DOMAIN || !SHOPIFY_ADMIN_ACCESS_TOKEN` negated: both env
values truthy. -/
def shopifyConfigured (env : ShopifyEnv) : Bool :=
  truthyToken env.storeDomain && !env.adminToken.isEmpty

/-- The body of the variant-creation request built by `createDiamondVariant`.
`product_id` is `Number(DIAMOND_PRODUCT_ID)` (`none` = NaN); `sku = none`
models the `|| undefined` omission. -/
structure VariantPayload where
  product_id : Option ℚ
  title : String
  price : String
  sku : Option JScalar
  deriving DecidableEq, Repr

/-- The certificate `createDiamondVariant` reads:
`(diamond && diamond.certificate) || {}`. -/
def checkoutCertOf (diamond : Option DiamondObj) : RawCertificate :=
  match diamond with
  | some d => d.certificate.getD emptyRawCert
  | none => emptyRawCert

/-- The variant title: `Diamond ${carats}ct ${shape}` from the truthy
certificate fields, else the generic `"Diamond"`. -/
def diamondTitle (cert : RawCertificate) : String :=
  let bits :=
    (if jsTruthy cert.carats then [jToString cert.carats ++ "ct"] else []) ++
    (if jsTruthy cert.shape then [jToString cert.shape] else [])
  if bits.isEmpty then "Diamond" else "Diamond " ++ String.intercalate " " bits

/-- The variant SKU: `cert.certNumber || (diamond && diamond.id &&
NIV-${diamond.id})`, then `sku || undefined`; `none` models `undefined`. -/
def diamondSku (diamond : Option DiamondObj) (cert : RawCertificate) :
    Option JScalar :=
  if jsTruthy cert.certNumber then some cert.certNumber
  else
    match diamond with
    | some d =>
        if jsTruthy d.id then some (.jstr ("NIV-" ++ jToString d.id)) else none
    | none => none

/-- The variant price string:
`(Number(diamondPriceCents || 0) / 100).toFixed(2)`; a NaN coercion renders as
`"NaN"`. -/
def diamondVariantPrice (diamondPriceCents : JScalar) : String :=
  match (if jsTruthy diamondPriceCents then jsToNumber diamondPriceCents
         else some 0) with
  | some q => toFixed2 (q / 100)
  | none => "NaN"

/-- The payload built by `createDiamondVariant` (src/index.js lines 201-233)
once `DIAMOND_PRODUCT_ID` is known to be set. -/
def createDiamondVariantPayload (productId : String) (diamond : Option DiamondObj)
    (diamondPriceCents : JScalar) : VariantPayload :=
  let cert := checkoutCertOf diamond
  { product_id := strToNumber productId
    title := diamondTitle cert
    price := diamondVariantPrice diamondPriceCents
    sku := diamondSku diamond cert }

/-- Properties attached to a line item: either the opaque pass-through
`lineItemProperties` object, or the diamond audit pair
`{ Diamond: JSON.stringify(diamond), "Diamond price (cents)":
String(diamondPriceCents) }`, modelled by the serialized values themselves
(which determine the two strings). -/
inductive LineProps where
  | passthrough (props : List (String × JScalar))
  | diamondAudit (diamond : DiamondObj) (priceCents : JScalar)
  deriving DecidableEq, Repr

/-- A Shopify line item; `variant_id` is a `Number(...)` coercion (`none` =
NaN). -/
structure LineItem where
  variant_id : Option ℚ
  quantity : ℚ
  properties : LineProps
  deriving DecidableEq, Repr

/-- The outbound calls a handler can issue. -/
inductive ExtCall where
  | nivodaQuery (vars : QueryVariables)
  | createVariant (payload : VariantPayload)
  | createCheckout (items : List LineItem)
  deriving DecidableEq, Repr

/-- The store's observable replies during one checkout: the created variant id
(`none` when the request fails or the reply lacks `variant.id`) and the
checkout `web_url` (`none` when the request fails or the reply lacks it). -/
structure StoreBehavior where
  variantResp : Option ℚ
  checkoutResp : Option String
  deriving DecidableEq, Repr

/-- The HTTP responses the `/checkout` handler produces. -/
inductive HttpResponse where
  | badRequest (error : String)
  | okCart (cartUrl : String)
  | okCheckout (checkoutUrl : String)
  | serverError (error : String)
  deriving DecidableEq, Repr

/-- The `/checkout` request body fields the handler destructures, before the
destructuring defaults are applied (`jundefined` = field absent).
`diamond = none` models an absent/falsy `diamond`. -/
structure CheckoutBody where
  ringVariantId : JScalar
  quantity : JScalar
  ringConfig : JScalar
  diamond : Option DiamondObj
  diamondPriceCents : JScalar
  lineItemProperties : List (String × JScalar)
  deriving DecidableEq, Repr

/-- `Number(quantity) || 1`. -/
def jsNumOrOne (v : JScalar) : ℚ :=
  match jsToNumber v with
  | some q => if q = 0 then 1 else q
  | none => 1

/-- `diamondPriceCents > 0` in JS: numeric comparison after `Number` coercion
(NaN compares false). -/
def jsGtZero (v : JScalar) : Bool :=
  match jsToNumber v with
  | some q => decide (0 < q)
  | none => false

/-- The second line item: the created diamond variant with the audit
properties. -/
def diamondLineItem (variantId : ℚ) (diamond : DiamondObj)
    (diamondPriceCents : JScalar) : LineItem :=
  { variant_id := some variantId
    quantity := 1
    properties := .diamondAudit diamond diamondPriceCents }

/-- The `/checkout` handler (src/index.js lines 331-387): validate
`ringVariantId`, fall back to a cart URL when Shopify is unconfigured,
otherwise build the ring line item, optionally create a diamond variant and a
second line item, and create the checkout.  Returns the response and the list
of outbound calls in order. -/
def checkoutHandler (env : ShopifyEnv) (body : CheckoutBody)
    (store : StoreBehavior) : HttpResponse × List ExtCall :=
  let quantity := if body.quantity = .jundefined then .jnum 1 else body.quantity
  let diamondPriceCents :=
    if body.diamondPriceCents = .jundefined then .jnum 0 else body.diamondPriceCents
  if !jsTruthy body.ringVariantId then
    (.badRequest "Missing ringVariantId", [])
  else if !shopifyConfigured env then
    (.okCart ("/cart/" ++ jToString body.ringVariantId ++ ":" ++
      jToString quantity), [])
  else
    let ringItem : LineItem :=
      { variant_id := jsToNumber body.ringVariantId
        quantity := jsNumOrOne quantity
        properties := .passthrough body.lineItemProperties }
    match body.diamond, jsGtZero diamondPriceCents with
    | some d, true =>
        match env.diamondProductId with
        | none => (.serverError "Checkout error", [])
        | some pid =>
            if pid.isEmpty then (.serverError "Checkout error", [])
            else
              let payload := createDiamondVariantPayload pid (some d) diamondPriceCents
              match store.variantResp with
              | none => (.serverError "Checkout error", [.createVariant payload])
              | some vid =>
                  let items := [ringItem, diamondLineItem vid d diamondPriceCents]
                  match store.checkoutResp with
                  | some url =>
                      (.okCheckout url,
                       [.createVariant payload, .createCheckout items])
                  | none =>
                      (.serverError "Checkout error",
                       [.createVariant payload, .createCheckout items])
    | _, _ =>
        let items := [ringItem]
        match store.checkoutResp with
        | some url => (.okCheckout url, [.createCheckout items])
        | none => (.serverError "Checkout error", [.createCheckout items])

/-! ## Helper lemmas -/

theorem SHAPE_MAP_ne_empty {s : String} {code : String}
    (h : SHAPE_MAP s = some code) : s.isEmpty = false := by
  cases he : s.isEmpty
  · rfl
  · exfalso
    have : s = "" := (String.isEmpty_iff s).mp he
    subst this
    simp [SHAPE_MAP] at h

theorem copyField_of_ne_null {v : JScalar} (h : copyField v ≠ .jnull) :
    copyField v = v := by
  cases ht : jsTruthy v
  · exact absurd (by simp [copyField, ht]) h
  · simp [copyField, ht]

/-! ## Claim theorems -/

/-- Claim C6: for every `/diamonds` request whose shape label is present in the
`SHAPE_MAP` table, the query sent to the supplier carries the mapped shape
code (as the one-element `shapes` array); for a shape label absent from the
table, or no shape at all, the query carries no shape filter. -/
theorem diamonds_shape_filter (req : DiamondsRequest) :
    (∀ s code, req.shape = .jstr s → SHAPE_MAP s = some code →
      (buildDiamondsVariables req).query.shapes = some [code]) ∧
    (∀ s, req.shape = .jstr s → SHAPE_MAP s = none →
      (buildDiamondsVariables req).query.shapes = none) ∧
    (req.shape = .jundefined → (buildDiamondsVariables req).query.shapes = none) := by
  refine ⟨?_, ?_, ?_⟩
  · intro s code hs hmap
    have hne := SHAPE_MAP_ne_empty hmap
    simp [buildDiamondsVariables, mappedShape, jsTruthy, jToString, hs, hne, hmap]
  · intro s hs hmap
    simp only [buildDiamondsVariables, mappedShape, hs, jsTruthy, jToString]
    cases he : s.isEmpty <;> simp [he, hmap]
  · intro hs
    simp [buildDiamondsVariables, mappedShape, hs, jsTruthy]

/-- Witness for C6: the label `"Brilliant Round"` maps to `ROUND`; the unmapped
label `"Trillion"` and an absent shape produce no shape filter. -/
theorem diamonds_shape_filter_witness :
    (buildDiamondsVariables
      { shape := .jstr "Brilliant Round", carat := none, limit := .jundefined
        }).query.shapes = some ["ROUND"] ∧
    (buildDiamondsVariables
      { shape := .jstr "Trillion", carat := none, limit := .jundefined
        }).query.shapes = none ∧
    (buildDiamondsVariables
      { shape := .jundefined, carat := none, limit := .jundefined }).query.shapes
      = none := by
  refine ⟨?_, ?_, ?_⟩
  · exact (diamonds_shape_filter _).1 "Brilliant Round" "ROUND" rfl rfl
  · exact (diamonds_shape_filter _).2.1 "Trillion" rfl rfl
  · exact (diamonds_shape_filter _).2.2 rfl

/-- Claim C7: when both carat bounds are absent or non-numeric, the supplier
query has no size filter; when at least one bound is a number, it has the
single `{from, to}` pair with the absent bound as `null` (`none`) and the
numeric bounds passed through. -/
theorem diamonds_carat_filter (req : DiamondsRequest) :
    (caratBound req.carat CaratRange.min = none →
      caratBound req.carat CaratRange.max = none →
      (buildDiamondsVariables req).query.sizes = none) ∧
    (∀ c, req.carat = some c →
      ((numOf c.min).isSome = true ∨ (numOf c.max).isSome = true) →
      (buildDiamondsVariables req).query.sizes
        = some [(numOf c.min, numOf c.max)]) := by
  constructor
  · intro hmin hmax
    simp [buildDiamondsVariables, hmin, hmax]
  · intro c hc hor
    have hmin : caratBound req.carat CaratRange.min = numOf c.min := by
      simp [caratBound, hc]
    have hmax : caratBound req.carat CaratRange.max = numOf c.max := by
      simp [caratBound, hc]
    simp only [buildDiamondsVariables, hmin, hmax]
    rcases hor with h | h <;> simp [h]

/-- Witness for C7: `carat = {min: 0.45, max: "x"}` yields the single pair
`(0.45, null)`; an absent carat yields no size filter. -/
theorem diamonds_carat_filter_witness :
    (buildDiamondsVariables
      { shape := .jundefined
        carat := some { min := .jnum (9/20), max := .jstr "x" }
        limit := .jundefined }).query.sizes = some [(some (9/20), none)] ∧
    (buildDiamondsVariables
      { shape := .jundefined, carat := none, limit := .jundefined }).query.sizes
      = none := by
  constructor
  · exact (diamonds_carat_filter
      { shape := .jundefined
        carat := some { min := .jnum (9/20), max := .jstr "x" }
        limit := .jundefined }).2
      { min := .jnum (9/20), max := .jstr "x" } rfl (Or.inl rfl)
  · exact (diamonds_carat_filter
      { shape := .jundefined, carat := none, limit := .jundefined }).1 rfl rfl

/-- Claim C10: a falsy `limit` (absent, `0`, or otherwise falsy) makes the
supplier query use `limit = 24`; the `offset` is always `0`; a truthy numeric
limit is passed through unchanged. -/
theorem diamonds_limit_default (req : DiamondsRequest) :
    (buildDiamondsVariables req).offset = 0 ∧
    (jsTruthy req.limit = false →
      (buildDiamondsVariables req).limit = .jnum 24) ∧
    (∀ q : ℚ, req.limit = .jnum q → q ≠ 0 →
      (buildDiamondsVariables req).limit = .jnum q) := by
  refine ⟨rfl, ?_, ?_⟩
  · intro h
    simp [buildDiamondsVariables, h]
  · intro q hq hne
    simp [buildDiamondsVariables, hq, jsTruthy, hne]

/-- Witness for C10: an explicit `limit: 0` is replaced by `24`, while
`limit: 10` passes through; the offset is `0`. -/
theorem diamonds_limit_default_witness :
    (buildDiamondsVariables
      { shape := .jundefined, carat := none, limit := .jnum 0 }).limit
      = JScalar.jnum 24 ∧
    (buildDiamondsVariables
      { shape := .jundefined, carat := none, limit := .jnum 10 }).limit
      = JScalar.jnum 10 ∧
    (buildDiamondsVariables
      { shape := .jundefined, carat := none, limit := .jnum 0 }).offset = 0 := by
  refine ⟨?_, ?_, ?_⟩
  · exact (diamonds_limit_default _).2.1 (by decide)
  · exact (diamonds_limit_default _).2.2 10 rfl (by norm_num)
  · exact (diamonds_limit_default _).1

/-- Counterexample to claim C1 as stated: the raw price `"0"` — a string,
hence not a numeric value — is truthy, so the handler coerces it with
`Number` and produces `priceCents = 0`, which is neither absent nor `null`,
although the claim demands `null` and "never 0" for a non-numeric price. -/
theorem diamonds_priceCents_str_zero :
    (normalizeItem
      { id := .jstr "d1", price := .jstr "0", diamond := none }).priceCents
      = PriceCents.val 0 ∧
    PriceCents.val 0 ≠ PriceCents.null := by
  constructor
  · have h : strToNumber "0" = some 0 := by
      simp [strToNumber, trimChars, parseDecimal, natFromDigits]
    simp [normalizeItem, normalizePriceCents, jsTruthy, jsToNumber, h, jsRound,
      show "0".isEmpty = false from rfl]
    norm_num
  · decide

/-- Claim C1 as amended: a numeric raw price yields
`priceCents = round(price * 100)`; an absent or falsy non-numeric price
(`undefined`, `null`, `false`, `""`) yields `null`; a truthy non-numeric price
is coerced with `Number` and yields `round(Number(price) * 100)` — possibly
`0`, e.g. for the string `"0"` — or `NaN` when the coercion fails. -/
theorem diamonds_priceCents_spec (d : RawItem) :
    (∀ q : ℚ, d.price = .jnum q →
      (normalizeItem d).priceCents = .val (jsRound (q * 100))) ∧
    (isNumber d.price = false → jsTruthy d.price = false →
      (normalizeItem d).priceCents = .null) ∧
    (∀ q : ℚ, isNumber d.price = false → jsTruthy d.price = true →
      jsToNumber d.price = some q →
      (normalizeItem d).priceCents = .val (jsRound (q * 100))) ∧
    (isNumber d.price = false → jsTruthy d.price = true →
      jsToNumber d.price = none →
      (normalizeItem d).priceCents = .nan) := by
  refine ⟨?_, ?_, ?_, ?_⟩
  · intro q hq
    simp [normalizeItem, normalizePriceCents, hq]
  · intro hnum htr
    cases hp : d.price <;>
      simp_all [normalizeItem, normalizePriceCents, isNumber]
  · intro q hnum htr hco
    cases hp : d.price <;>
      simp_all [normalizeItem, normalizePriceCents, isNumber]
  · intro hnum htr hco
    cases hp : d.price <;>
      simp_all [normalizeItem, normalizePriceCents, isNumber]

/-- Witness for the amended C1: a numeric price `2.5` normalizes to `250`
hundredths; an absent price normalizes to `null`. -/
theorem diamonds_priceCents_spec_witness :
    (normalizeItem
      { id := .jnull, price := .jnum (5/2), diamond := none }).priceCents
      = PriceCents.val 250 ∧
    (normalizeItem
      { id := .jnull, price := .jundefined, diamond := none }).priceCents
      = PriceCents.null := by
  constructor
  · have h := (diamonds_priceCents_spec
      { id := .jnull, price := .jnum (5/2), diamond := none }).1 (5/2) rfl
    rw [h]
    norm_num [jsRound]
  · exact (diamonds_priceCents_spec
      { id := .jnull, price := .jundefined, diamond := none }).2.1 rfl rfl

/-- Counterexample to claim C9 as stated: a raw item whose certificate carries
`carats: 0` — a value that is present, not missing — normalizes to
`carats: null`, which is not a copy of the raw value `0`. -/
theorem diamonds_normalize_carats_zero :
    (normalizeItem
      { id := .jstr "d2", price := .jundefined
        diamond := some
          { image := .jstr "img"
            certificate := some
              { carats := .jnum 0, shape := .jundefined, color := .jundefined
                clarity := .jundefined, cut := .jundefined, certNumber := .jundefined }
            } }).certificate.carats = JScalar.jnull ∧
    (rawCertOf
      { id := .jstr "d2", price := .jundefined
        diamond := some
          { image := .jstr "img"
            certificate := some
              { carats := .jnum 0, shape := .jundefined, color := .jundefined
                clarity := .jundefined, cut := .jundefined, certNumber := .jundefined }
            } }).carats = JScalar.jnum 0 ∧
    JScalar.jnum 0 ≠ JScalar.jnull := by
  exact ⟨by decide, by decide, by decide⟩

/-- Claim C9 as amended: the normalized `image` and each certificate sub-field
is a copy of the corresponding raw value when that value is truthy, and `null`
when it is missing or falsy (`null`, `0`, `""`, `false`); consequently no
field is ever given a non-null value different from the raw one. -/
theorem diamonds_normalize_fields (d : RawItem) :
    ((normalizeItem d).image
      = (if jsTruthy (rawImageOf d) then rawImageOf d else .jnull) ∧
     (normalizeItem d).certificate.carats
      = (if jsTruthy (rawCertOf d).carats then (rawCertOf d).carats else .jnull) ∧
     (normalizeItem d).certificate.shape
      = (if jsTruthy (rawCertOf d).shape then (rawCertOf d).shape else .jnull) ∧
     (normalizeItem d).certificate.color
      = (if jsTruthy (rawCertOf d).color then (rawCertOf d).color else .jnull) ∧
     (normalizeItem d).certificate.clarity
      = (if jsTruthy (rawCertOf d).clarity then (rawCertOf d).clarity else .jnull) ∧
     (normalizeItem d).certificate.cut
      = (if jsTruthy (rawCertOf d).cut then (rawCertOf d).cut else .jnull) ∧
     (normalizeItem d).certificate.certNumber
      = (if jsTruthy (rawCertOf d).certNumber then (rawCertOf d).certNumber
         else .jnull)) ∧
    (((normalizeItem d).image ≠ .jnull →
        (normalizeItem d).image = rawImageOf d) ∧
     ((normalizeItem d).certificate.carats ≠ .jnull →
        (normalizeItem d).certificate.carats = (rawCertOf d).carats) ∧
     ((normalizeItem d).certificate.shape ≠ .jnull →
        (normalizeItem d).certificate.shape = (rawCertOf d).shape) ∧
     ((normalizeItem d).certificate.color ≠ .jnull →
        (normalizeItem d).certificate.color = (rawCertOf d).color) ∧
     ((normalizeItem d).certificate.clarity ≠ .jnull →
        (normalizeItem d).certificate.clarity = (rawCertOf d).clarity) ∧
     ((normalizeItem d).certificate.cut ≠ .jnull →
        (normalizeItem d).certificate.cut = (rawCertOf d).cut) ∧
     ((normalizeItem d).certificate.certNumber ≠ .jnull →
        (normalizeItem d).certificate.certNumber
          = (rawCertOf d).certNumber)) := by
  have himg : (normalizeItem d).image = copyField (rawImageOf d) := by
    cases d.diamond <;> rfl
  have hcert : (normalizeItem d).certificate =
      { carats := copyField (rawCertOf d).carats
        shape := copyField (rawCertOf d).shape
        color := copyField (rawCertOf d).color
        clarity := copyField (rawCertOf d).clarity
        cut := copyField (rawCertOf d).cut
        certNumber := copyField (rawCertOf d).certNumber } := by
    cases d.diamond <;> rfl
  refine ⟨⟨?_, ?_, ?_, ?_, ?_, ?_, ?_⟩, ?_, ?_, ?_, ?_, ?_, ?_, ?_⟩ <;>
    simp only [himg, hcert] <;>
    first
      | (exact copyField_of_ne_null)
      | rfl

/-- Witness for the amended C9: a truthy image string is copied, a falsy one
becomes `null`. -/
theorem diamonds_normalize_fields_witness :
    (normalizeItem
      { id := .jnull, price := .jundefined
        diamond := some { image := .jstr "http://x", certificate := none }
        }).image = JScalar.jstr "http://x" := by
  have h := (diamonds_normalize_fields
    { id := .jnull, price := .jundefined
      diamond := some { image := .jstr "http://x", certificate := none }
      }).2.1 (by decide)
  rw [h]
  rfl

/-- Claim C2: `getNivodaToken` returns the cached token with no authenticate
call whenever a (truthy) cached token exists and `now` is before its stored
expiry; otherwise, with configured credentials and an authenticate call that
yields a token, it performs exactly one authenticate call, caches the token
with expiry `TOKEN_TTL_MS` (5.5 h) past the `Date.now()` sampled when storing,
and returns it.  Hence a second call while the resulting cache is unexpired
performs no authenticate call, and a call at or past the stored expiry, with
configured credentials, performs exactly one. -/
theorem getNivodaToken_cache_spec :
    (∀ (st : TokenState) (now : ℤ) (t : String) (credsOk : Bool)
        (auth : AuthOutcome) (na : ℤ),
      st.cachedToken = some t → t.isEmpty = false →
      now < st.cachedTokenExpiry →
      getNivodaToken st now credsOk auth na =
        { result := .ok t, state := st, authCalls := 0 }) ∧
    (∀ (st : TokenState) (now : ℤ) (t : String) (na : ℤ),
      tokenCacheValid st now = false → t.isEmpty = false →
      getNivodaToken st now true (.ok (some t)) na =
        { result := .ok t
          state := { cachedToken := some t
                     cachedTokenExpiry := na + TOKEN_TTL_MS }
          authCalls := 1 }) ∧
    (∀ (st : TokenState) (now : ℤ) (credsOk : Bool) (auth : AuthOutcome)
        (na : ℤ) (t : String) (now2 : ℤ) (credsOk2 : Bool)
        (auth2 : AuthOutcome) (na2 : ℤ),
      (getNivodaToken st now credsOk auth na).result = .ok t →
      now2 < (getNivodaToken st now credsOk auth na).state.cachedTokenExpiry →
      (getNivodaToken (getNivodaToken st now credsOk auth na).state now2
        credsOk2 auth2 na2).authCalls = 0) ∧
    (∀ (st : TokenState) (now2 : ℤ) (auth2 : AuthOutcome) (na2 : ℤ),
      st.cachedTokenExpiry ≤ now2 →
      (getNivodaToken st now2 true auth2 na2).authCalls = 1) := by
  have htruthy : ∀ (st : TokenState) (now : ℤ) (credsOk : Bool)
      (auth : AuthOutcome) (na : ℤ) (t : String),
      (getNivodaToken st now credsOk auth na).result = .ok t →
      truthyToken (getNivodaToken st now credsOk auth na).state.cachedToken
        = true := by
    intro st now credsOk auth na t hok
    by_cases hcv : tokenCacheValid st now = true
    · have : truthyToken st.cachedToken = true := by
        have h := hcv
        simp [tokenCacheValid] at h
        exact h.1
      simp [getNivodaToken, hcv, this]
    · rw [getNivodaToken, if_neg hcv] at hok ⊢
      unfold refreshNivodaToken at hok ⊢
      cases credsOk with
      | false => simp at hok
      | true =>
        cases auth with
        | httpError => simp at hok
        | ok tok =>
          cases tok with
          | none => simp at hok
          | some t' =>
            cases hne' : t'.isEmpty with
            | true => simp [hne'] at hok
            | false => simp [hne', truthyToken]
  refine ⟨?_, ?_, ?_, ?_⟩
  · intro st now t credsOk auth na ht hne hlt
    have hcv : tokenCacheValid st now = true := by
      simp [tokenCacheValid, truthyToken, ht, hne, hlt]
    simp [getNivodaToken, hcv, ht]
  · intro st now t na hcv hne
    simp [getNivodaToken, hcv, refreshNivodaToken, hne]
  · intro st now credsOk auth na t now2 credsOk2 auth2 na2 hok hlt2
    have htr := htruthy st now credsOk auth na t hok
    have hcv2 : tokenCacheValid
        (getNivodaToken st now credsOk auth na).state now2 = true := by
      simp [tokenCacheValid, htr, hlt2]
    generalize hst : (getNivodaToken st now credsOk auth na).state = st'
      at hcv2 ⊢
    simp [getNivodaToken, hcv2]
  · intro st now2 auth2 na2 hge
    have hcv : tokenCacheValid st now2 = false := by
      simp [tokenCacheValid, not_lt.mpr hge]
    rw [getNivodaToken, if_neg (by simp [hcv])]
    unfold refreshNivodaToken
    cases auth2 with
    | httpError => rfl
    | ok tok =>
      cases tok with
      | none => rfl
      | some t' =>
        simp only [Bool.not_true, Bool.false_eq_true, if_false]
        split <;> rfl

/-- Witness for C2, exercising all four parts at concrete values: a cache hit
at `now = 50 < 100` returns the cached token with no authenticate call; a
refresh from the empty cache at `na = 60` stores expiry `60 + TOKEN_TTL_MS`
with one call; a second call before that expiry makes no call; a call at the
stored expiry with configured credentials makes exactly one call. -/
theorem getNivodaToken_cache_spec_witness :
    getNivodaToken { cachedToken := some "tok", cachedTokenExpiry := 100 } 50
        true .httpError 60 =
      { result := .ok "tok"
        state := { cachedToken := some "tok", cachedTokenExpiry := 100 }
        authCalls := 0 } ∧
    getNivodaToken { cachedToken := none, cachedTokenExpiry := 0 } 50
        true (.ok (some "fresh")) 60 =
      { result := .ok "fresh"
        state := { cachedToken := some "fresh"
                   cachedTokenExpiry := 60 + TOKEN_TTL_MS }
        authCalls := 1 } ∧
    (getNivodaToken
      (getNivodaToken { cachedToken := none, cachedTokenExpiry := 0 } 50
        true (.ok (some "fresh")) 60).state 70 true .httpError 80).authCalls
      = 0 ∧
    (getNivodaToken { cachedToken := some "tok", cachedTokenExpiry := 100 } 100
        true .httpError 110).authCalls = 1 := by
  refine ⟨?_, ?_, ?_, ?_⟩
  · exact getNivodaToken_cache_spec.1
      { cachedToken := some "tok", cachedTokenExpiry := 100 } 50 "tok"
      true .httpError 60 rfl rfl (by decide)
  · exact getNivodaToken_cache_spec.2.1
      { cachedToken := none, cachedTokenExpiry := 0 } 50 "fresh" 60
      (by decide) rfl
  · exact getNivodaToken_cache_spec.2.2.1
      { cachedToken := none, cachedTokenExpiry := 0 } 50 true
      (.ok (some "fresh")) 60 "fresh" 70 true .httpError 80 rfl
      (by decide)
  · exact getNivodaToken_cache_spec.2.2.2
      { cachedToken := some "tok", cachedTokenExpiry := 100 } 100 .httpError
      110 (by decide)

/-- Claim C5: a `/checkout` request whose `ringVariantId` is missing is
answered with HTTP 400 (`Missing ringVariantId`) and no external call of any
kind — no supplier query, no store call, no variant creation. -/
theorem checkout_missing_ring_variant (env : ShopifyEnv) (body : CheckoutBody)
    (store : StoreBehavior) (h : body.ringVariantId = .jundefined) :
    checkoutHandler env body store =
      (.badRequest "Missing ringVariantId", []) := by
  simp [checkoutHandler, h, jsTruthy]

/-- Witness for C5: a body with every field absent gets the 400 and an empty
call list even with a fully configured store. -/
theorem checkout_missing_ring_variant_witness :
    checkoutHandler
      { storeDomain := some "shop.example.com", adminToken := "shpat"
        diamondProductId := some "777" }
      { ringVariantId := .jundefined, quantity := .jundefined, ringConfig := .jundefined
        diamond := none, diamondPriceCents := .jundefined
        lineItemProperties := [] }
      { variantResp := some 1, checkoutResp := some "https://c" } =
      (.badRequest "Missing ringVariantId", []) :=
  checkout_missing_ring_variant _ _ _ rfl

/-- Counterexample to claim C3 as stated: the request
`{ringVariantId: ""}` has a present `ringVariantId`, and the store is
unconfigured, yet the handler answers 400 rather than the successful
`{cartUrl: "/cart/:1"}` the claim requires, because the validation tests
truthiness, not presence. -/
theorem checkout_fallback_empty_id :
    checkoutHandler
      { storeDomain := none, adminToken := "", diamondProductId := none }
      { ringVariantId := .jstr "", quantity := .jundefined, ringConfig := .jundefined
        diamond := none, diamondPriceCents := .jundefined
        lineItemProperties := [] }
      { variantResp := none, checkoutResp := none } =
      (.badRequest "Missing ringVariantId", []) ∧
    HttpResponse.badRequest "Missing ringVariantId"
      ≠ HttpResponse.okCart "/cart/:1" := by
  exact ⟨rfl, by decide⟩

/-- Claim C3 as amended: for every `/checkout` request with a truthy
`ringVariantId`, when the store integration is unconfigured the handler
returns the successful `{cartUrl: "/cart/{variantId}:{quantity}"}` response
(`quantity` defaulting to `1` when absent) and issues no external call. -/
theorem checkout_fallback (env : ShopifyEnv) (body : CheckoutBody)
    (store : StoreBehavior)
    (hrv : jsTruthy body.ringVariantId = true)
    (hcfg : shopifyConfigured env = false) :
    (body.quantity = .jundefined →
      checkoutHandler env body store =
        (.okCart ("/cart/" ++ jToString body.ringVariantId ++ ":1"), [])) ∧
    (body.quantity ≠ .jundefined →
      checkoutHandler env body store =
        (.okCart ("/cart/" ++ jToString body.ringVariantId ++ ":" ++
          jToString body.quantity), [])) := by
  constructor <;> intro hq <;>
    simp [checkoutHandler, hrv, hcfg, hq, jToString, String.append_assoc,
      show toString (1 : ℤ) = "1" from rfl,
      show ((":" ++ "1" : String) = ":1") from rfl]

/-- Witness for the amended C3: `{ringVariantId: "123", quantity: 2}` against
an unconfigured store yields `{cartUrl: "/cart/123:2"}` and no calls. -/
theorem checkout_fallback_witness :
    checkoutHandler
      { storeDomain := none, adminToken := "", diamondProductId := none }
      { ringVariantId := .jstr "123", quantity := .jnum 2
        ringConfig := .jundefined, diamond := none, diamondPriceCents := .jundefined
        lineItemProperties := [] }
      { variantResp := none, checkoutResp := none } =
      (.okCart "/cart/123:2", []) := by
  have h := (checkout_fallback
    { storeDomain := none, adminToken := "", diamondProductId := none }
    { ringVariantId := .jstr "123", quantity := .jnum 2
      ringConfig := .jundefined, diamond := none, diamondPriceCents := .jundefined
      lineItemProperties := [] }
    { variantResp := none, checkoutResp := none } rfl rfl).2 (by decide)
  rw [h]
  norm_num [jToString]
  rw [show toString (2 : ℤ) = "2" from rfl]
  rfl

/-- Claim C4: a configured-store `/checkout` with a valid ring variant, a
selected diamond and a strictly positive numeric `diamondPriceCents` issues
exactly one variant-creation call, followed by one checkout-creation call
whose body holds exactly two line items: the ring variant with the
pass-through properties, and the freshly created diamond variant carrying the
full diamond record and its price as properties. -/
theorem checkout_diamond_flow (env : ShopifyEnv) (body : CheckoutBody)
    (store : StoreBehavior) (d : DiamondObj) (pid : String) (vid : ℚ) (pc : ℚ)
    (hrv : jsTruthy body.ringVariantId = true)
    (hcfg : shopifyConfigured env = true)
    (hpid : env.diamondProductId = some pid)
    (hpidne : pid.isEmpty = false)
    (hd : body.diamond = some d)
    (hpc : body.diamondPriceCents = .jnum pc)
    (hpos : 0 < pc)
    (hvar : store.variantResp = some vid) :
    (checkoutHandler env body store).2 =
      [ExtCall.createVariant
        (createDiamondVariantPayload pid (some d) (.jnum pc)),
       ExtCall.createCheckout
        [{ variant_id := jsToNumber body.ringVariantId
           quantity := jsNumOrOne
             (if body.quantity = .jundefined then .jnum 1 else body.quantity)
           properties := .passthrough body.lineItemProperties },
         { variant_id := some vid, quantity := 1
           properties := .diamondAudit d (.jnum pc) }]] := by
  have hne : (body.diamondPriceCents = JScalar.jundefined) = False := by
    simp [hpc]
  have hgt : jsGtZero (.jnum pc) = true := by
    simp [jsGtZero, jsToNumber, hpos]
  cases hco : store.checkoutResp <;>
    simp [checkoutHandler, hrv, hcfg, hpid, hpidne, hd, hpc, hne, hgt, hvar,
      hco, diamondLineItem]

/-- Witness for C4: a concrete configured checkout with diamond
`{id: "abc", certificate: {carats: 1, shape: ROUND, certNumber: GIA1}}` at
9900 cents creates one variant (price `"99.00"`, SKU `GIA1`) and one checkout
request with the ring line item and the diamond line item. -/
theorem checkout_diamond_flow_witness :
    (checkoutHandler
      { storeDomain := some "shop.example.com", adminToken := "shpat"
        diamondProductId := some "7" }
      { ringVariantId := .jnum 42, quantity := .jundefined, ringConfig := .jundefined
        diamond := some
          { id := .jstr "abc"
            certificate := some
              { carats := .jnum 1, shape := .jstr "ROUND", color := .jundefined
                clarity := .jundefined, cut := .jundefined
                certNumber := .jstr "GIA1" } }
        diamondPriceCents := .jnum 9900
        lineItemProperties := [("Metal", .jstr "Gold")] }
      { variantResp := some 555, checkoutResp := some "https://c" }).2 =
      [ExtCall.createVariant
        { product_id := some 7, title := "Diamond 1ct ROUND"
          price := "99.00", sku := some (.jstr "GIA1") },
       ExtCall.createCheckout
        [{ variant_id := some 42, quantity := 1
           properties := .passthrough [("Metal", .jstr "Gold")] },
         { variant_id := some 555, quantity := 1
           properties := .diamondAudit
             { id := .jstr "abc"
               certificate := some
                 { carats := .jnum 1, shape := .jstr "ROUND"
                   color := .jundefined, clarity := .jundefined, cut := .jundefined
                   certNumber := .jstr "GIA1" } } (.jnum 9900) }]] := by
  have h := checkout_diamond_flow
    { storeDomain := some "shop.example.com", adminToken := "shpat"
      diamondProductId := some "7" }
    { ringVariantId := .jnum 42, quantity := .jundefined, ringConfig := .jundefined
      diamond := some
        { id := .jstr "abc"
          certificate := some
            { carats := .jnum 1, shape := .jstr "ROUND", color := .jundefined
              clarity := .jundefined, cut := .jundefined
              certNumber := .jstr "GIA1" } }
      diamondPriceCents := .jnum 9900
      lineItemProperties := [("Metal", .jstr "Gold")] }
    { variantResp := some 555, checkoutResp := some "https://c" }
    { id := .jstr "abc"
      certificate := some
        { carats := .jnum 1, shape := .jstr "ROUND", color := .jundefined
          clarity := .jundefined, cut := .jundefined
          certNumber := .jstr "GIA1" } }
    "7" 555 9900 rfl rfl rfl rfl rfl rfl (by norm_num) rfl
  rw [h]
  have h7 : strToNumber "7" = some 7 := by
    simp [strToNumber, trimChars, parseDecimal, natFromDigits,
      show '7'.toNat = 55 from rfl]
    norm_num
  have hfix : toFixed2 ((9900 : ℚ) / 100) = "99.00" := by
    rw [toFixed2, if_neg (by norm_num)]
    norm_num [fixed2String]
    rfl
  simp [createDiamondVariantPayload, diamondTitle, diamondSku,
    diamondVariantPrice, checkoutCertOf, jsTruthy, jsToNumber, jsNumOrOne,
    jToString, h7, hfix]
  exact ⟨rfl, rfl⟩

/-- Counterexample to claim C8 as stated: a diamond whose certificate carries
the present (but empty) certificate number `""` gets the fallback SKU
`NIV-D1` derived from its identifier, not the certificate number, because the
code tests truthiness, not presence. -/
theorem diamond_variant_sku_empty_cert :
    (createDiamondVariantPayload "7"
      (some
        { id := .jstr "D1"
          certificate := some
            { carats := .jundefined, shape := .jundefined, color := .jundefined
              clarity := .jundefined, cut := .jundefined
              certNumber := .jstr "" } })
      (.jnum 500)).sku = some (JScalar.jstr "NIV-D1") ∧
    some (JScalar.jstr "NIV-D1") ≠ some (JScalar.jstr "") := by
  constructor
  · rfl
  · decide

/-- Claim C8 as amended: for every diamond variant created during checkout
with a positive numeric price, the submitted price is the minor-unit price
divided by 100 and rendered with two-decimal rounding (`toFixed(2)`), and the
SKU is the certificate number when it is truthy (non-empty), else
`NIV-{diamond id}` when the diamond identifier is truthy, else omitted. -/
theorem diamond_variant_price_sku (pid : String) (d : DiamondObj) (pc : ℚ)
    (hpos : 0 < pc) :
    (createDiamondVariantPayload pid (some d) (.jnum pc)).price
      = toFixed2 (pc / 100) ∧
    (jsTruthy (checkoutCertOf (some d)).certNumber = true →
      (createDiamondVariantPayload pid (some d) (.jnum pc)).sku
        = some (checkoutCertOf (some d)).certNumber) ∧
    (jsTruthy (checkoutCertOf (some d)).certNumber = false →
      jsTruthy d.id = true →
      (createDiamondVariantPayload pid (some d) (.jnum pc)).sku
        = some (.jstr ("NIV-" ++ jToString d.id))) ∧
    (jsTruthy (checkoutCertOf (some d)).certNumber = false →
      jsTruthy d.id = false →
      (createDiamondVariantPayload pid (some d) (.jnum pc)).sku = none) := by
  have htr : jsTruthy (.jnum pc) = true := by
    simp [jsTruthy]
    exact ne_of_gt hpos
  refine ⟨?_, ?_, ?_, ?_⟩
  · simp [createDiamondVariantPayload, diamondVariantPrice, htr, jsToNumber]
  · intro hc
    simp [createDiamondVariantPayload, diamondSku, hc]
  · intro hc hid
    simp [createDiamondVariantPayload, diamondSku, hc, hid]
  · intro hc hid
    simp [createDiamondVariantPayload, diamondSku, hc, hid]

/-- Witness for the amended C8: at 12345 cents the submitted price string is
`"123.45"`; with the truthy certificate number `GIA9` the SKU is `GIA9`. -/
theorem diamond_variant_price_sku_witness :
    (createDiamondVariantPayload "7"
      (some
        { id := .jstr "D2"
          certificate := some
            { carats := .jundefined, shape := .jundefined, color := .jundefined
              clarity := .jundefined, cut := .jundefined
              certNumber := .jstr "GIA9" } })
      (.jnum 12345)).price = "123.45" ∧
    (createDiamondVariantPayload "7"
      (some
        { id := .jstr "D2"
          certificate := some
            { carats := .jundefined, shape := .jundefined, color := .jundefined
              clarity := .jundefined, cut := .jundefined
              certNumber := .jstr "GIA9" } })
      (.jnum 12345)).sku = some (JScalar.jstr "GIA9") := by
  constructor
  · have h := (diamond_variant_price_sku "7"
      { id := .jstr "D2"
        certificate := some
          { carats := .jundefined, shape := .jundefined, color := .jundefined
            clarity := .jundefined, cut := .jundefined
            certNumber := .jstr "GIA9" } }
      12345 (by norm_num)).1
    rw [h, toFixed2, if_neg (by norm_num)]
    norm_num [fixed2String]
    rfl
  · exact (diamond_variant_price_sku "7"
      { id := .jstr "D2"
        certificate := some
          { carats := .jundefined, shape := .jundefined, color := .jundefined
            clarity := .jundefined, cut := .jundefined
            certNumber := .jstr "GIA9" } }
      12345 (by norm_num)).2.1 rfl

end RingBuilder
